import Mathlib

/-!
Verification of the EV-battery-health-prediction server core
(`src/app.py`): the input validator `validate_input`, the feature
reconstructor `prepare_features`, and the `/predict` endpoint's
validation and post-processing stages.

Python dictionaries are modelled as association lists with head-insert
shadowing (`fset`), which is faithful to dict assignment with respect to
every lookup the code performs.  Python numbers are modelled as rationals;
the one float-specific behaviour the code depends on — `float('nan')`
comparing false against every bound — is modelled explicitly by the
`EVal` type used in validation.
-/

namespace EVBattery

/-- A Python dict with numeric values, as used for the `features` working
map and (in the feature-reconstruction stage) the user input. -/
abbrev Dict := List (String × ℚ)

/-- Python `d[k] = v` (dict assignment), modelled by head insertion:
later lookups see the new binding. -/
def fset (m : Dict) (k : String) (v : ℚ) : Dict := (k, v) :: m

/-- Python `d.get(k, default)`. -/
def fgetD (m : Dict) (k : String) (d : ℚ) : ℚ := (m.lookup k).getD d

theorem lookup_fset (m : Dict) (k' : String) (v : ℚ) (k : String) :
    (fset m k' v).lookup k = if k = k' then some v else m.lookup k := by
  by_cases h : k = k'
  · subst h; simp [fset, List.lookup]
  · simp [fset, List.lookup, h, beq_eq_false_iff_ne.mpr h]

theorem lookup_fset_self (m : Dict) (k : String) (v : ℚ) :
    (fset m k v).lookup k = some v := by simp [lookup_fset]

theorem lookup_fset_ne (m : Dict) (k' : String) (v : ℚ) (k : String)
    (h : k ≠ k') : (fset m k' v).lookup k = m.lookup k := by
  simp [lookup_fset, h]

/-- The feature catalog loaded at startup: the ordered feature-name list
(`feature_names`) and the name → median fallback map (`feature_medians`),
globals in `app.py`. -/
structure Catalog where
  feature_names : List String
  feature_medians : Dict

/-- `feature_medians.get(name, 0.0)`. -/
def medianD (c : Catalog) (n : String) : ℚ := fgetD c.feature_medians n 0

/-- `features = {name: feature_medians.get(name, 0.0) for name in feature_names}`. -/
def initFeatures (c : Catalog) : Dict :=
  c.feature_names.map (fun n => (n, medianD c n))

/-- The `battery_temperature` block of `prepare_features`. -/
def stage_temp (i : Dict) (c : Catalog) (m : Dict) : Dict :=
  match i.lookup "battery_temperature" with
  | none => m
  | some t =>
      if "Exp_Temperature" ∈ c.feature_names then
        fset m "Exp_Temperature" t
      else m

/-- The `voltage` block of `prepare_features`. -/
def stage_voltage (i : Dict) (c : Catalog) (m : Dict) : Dict :=
  match i.lookup "voltage" with
  | none => m
  | some v =>
      let m1 := if "Exp_Voltage" ∈ c.feature_names then
          fset m "Exp_Voltage" v
        else m
      let m2 := if "Max. Voltage Dischar. (V)" ∈ c.feature_names then
          fset m1 "Max. Voltage Dischar. (V)" v
        else m1
      if "Min. Voltage Charg. (V)" ∈ c.feature_names then
        fset m2 "Min. Voltage Charg. (V)" (max (v - 1/2) 3)
      else m2

/-- The `current` block of `prepare_features`. -/
def stage_current (i : Dict) (c : Catalog) (m : Dict) : Dict :=
  match i.lookup "current" with
  | none => m
  | some cur =>
      if "Exp_Current" ∈ c.feature_names then
        fset m "Exp_Current" cur
      else m

/-- The `charging_cycles` block of `prepare_features`. -/
def stage_cycles (i : Dict) (c : Catalog) (m : Dict) : Dict :=
  match i.lookup "charging_cycles" with
  | none => m
  | some cyc =>
      let m1 := if "Cycle_Index" ∈ c.feature_names then
          fset m "Cycle_Index" cyc
        else m
      if "cycle_squared" ∈ c.feature_names then
        fset m1 "cycle_squared" (cyc ^ 2)
      else m1

/-- The `voltage_drop` derived-feature block. -/
def stage_vdrop (c : Catalog) (m : Dict) : Dict :=
  if "voltage_drop" ∈ c.feature_names then
    match m.lookup "Max. Voltage Dischar. (V)", m.lookup "Min. Voltage Charg. (V)" with
    | some mx, some mn => fset m "voltage_drop" (mx - mn)
    | _, _ => m
  else m

/-- The `energy_density` derived-feature block.  `current_val` is fetched
by the source but never used in the product — the formula is
`voltage_val * time_val`, exactly as in `app.py`. -/
def stage_energy (c : Catalog) (m : Dict) : Dict :=
  if "energy_density" ∈ c.feature_names then
    let voltage_val :=
      match m.lookup "Exp_Voltage" with
      | some v => v
      | none => (m.lookup "Max. Voltage Dischar. (V)").getD (37/10)
    let current_val := (m.lookup "Exp_Current").getD 2
    let time_val := (m.lookup "Time constant current (s)").getD 6000
    let _ := current_val
    fset m "energy_density" (voltage_val * time_val)
  else m

/-- The `temp_deviation` derived-feature block (`temp_mean = 26.0`). -/
def stage_temp_dev (c : Catalog) (m : Dict) : Dict :=
  if "temp_deviation" ∈ c.feature_names then
    match m.lookup "Exp_Temperature" with
    | some t => fset m "temp_deviation" (t - 26)
    | none => m
  else m

/-- The `state_of_charge` block: `Time at 4.15V (s) = 5000 + soc * 1000`
with `soc = state_of_charge / 100`. -/
def stage_soc (i : Dict) (c : Catalog) (m : Dict) : Dict :=
  match i.lookup "state_of_charge" with
  | none => m
  | some s =>
      let soc := s / 100
      if "Time at 4.15V (s)" ∈ c.feature_names then
        fset m "Time at 4.15V (s)" (5000 + soc * 1000)
      else m

/-- The `Exp_Time` block: `Exp_Time = cycles * 10000`. -/
def stage_exp_time (i : Dict) (c : Catalog) (m : Dict) : Dict :=
  if "Exp_Time" ∈ c.feature_names then
    match i.lookup "charging_cycles" with
    | some cyc => fset m "Exp_Time" (cyc * 10000)
    | none => m
  else m

/-- The working map after the direct-override blocks and the
`voltage_drop` block — the state `features` is in when the
`energy_density` block reads it. -/
def mapV (i : Dict) (c : Catalog) : Dict :=
  stage_vdrop c (stage_cycles i c (stage_current i c
    (stage_voltage i c (stage_temp i c (initFeatures c)))))

/-- The final state of the `features` working map in `prepare_features`. -/
def prepare_map (i : Dict) (c : Catalog) : Dict :=
  stage_exp_time i c (stage_soc i c (stage_temp_dev c (stage_energy c (mapV i c))))

/-- `np.array([features.get(name, feature_medians.get(name, 0.0)) for name
in feature_names])`: the output vector read off a working map in catalog
order. -/
def buildVector (c : Catalog) (m : Dict) : List ℚ :=
  c.feature_names.map (fun n => fgetD m n (medianD c n))

/-- `prepare_features(user_input)` from `app.py`, with the catalog
(globals `feature_names` / `feature_medians`) passed explicitly. -/
def prepare_features (i : Dict) (c : Catalog) : List ℚ :=
  buildVector c (prepare_map i c)

/-! ### The working map binds exactly the catalog's names -/

/-- `m` has exactly the catalog's feature names as keys. -/
def domEq (m : Dict) (c : Catalog) : Prop :=
  ∀ k, (m.lookup k).isSome ↔ k ∈ c.feature_names

theorem lookup_map_pair_isSome (g : String → ℚ) (l : List String) (k : String) :
    ((l.map (fun n => (n, g n))).lookup k).isSome ↔ k ∈ l := by
  induction l with
  | nil => simp [List.lookup]
  | cons a t ih =>
      by_cases h : k = a
      · subst h; simp [List.lookup]
      · simp [List.lookup, beq_eq_false_iff_ne.mpr h, ih, h]

theorem initFeatures_domEq (c : Catalog) : domEq (initFeatures c) c := by
  intro k; exact lookup_map_pair_isSome _ _ _

theorem fset_domEq {m : Dict} {c : Catalog} {k' : String} (v : ℚ)
    (h : domEq m c) (hk : k' ∈ c.feature_names) : domEq (fset m k' v) c := by
  intro k
  rw [lookup_fset]
  by_cases hkk : k = k'
  · subst hkk; simp [hk]
  · simp [hkk, h k]

theorem stage_temp_domEq {m : Dict} {c : Catalog} (i : Dict)
    (h : domEq m c) : domEq (stage_temp i c m) c := by
  unfold stage_temp
  split
  · exact h
  · split
    · exact fset_domEq _ h (by assumption)
    · exact h

theorem ite_mem_fset_domEq {m : Dict} {c : Catalog} (k' : String) (v : ℚ)
    (h : domEq m c) :
    domEq (if k' ∈ c.feature_names then fset m k' v else m) c := by
  split
  · exact fset_domEq _ h (by assumption)
  · exact h

theorem stage_voltage_domEq {m : Dict} {c : Catalog} (i : Dict)
    (h : domEq m c) : domEq (stage_voltage i c m) c := by
  unfold stage_voltage
  split
  · exact h
  · exact ite_mem_fset_domEq _ _ (ite_mem_fset_domEq _ _ (ite_mem_fset_domEq _ _ h))

theorem stage_current_domEq {m : Dict} {c : Catalog} (i : Dict)
    (h : domEq m c) : domEq (stage_current i c m) c := by
  unfold stage_current
  split
  · exact h
  · split
    · exact fset_domEq _ h (by assumption)
    · exact h

theorem stage_cycles_domEq {m : Dict} {c : Catalog} (i : Dict)
    (h : domEq m c) : domEq (stage_cycles i c m) c := by
  unfold stage_cycles
  split
  · exact h
  · exact ite_mem_fset_domEq _ _ (ite_mem_fset_domEq _ _ h)

theorem stage_vdrop_domEq {m : Dict} {c : Catalog}
    (h : domEq m c) : domEq (stage_vdrop c m) c := by
  unfold stage_vdrop
  split
  · split
    · exact fset_domEq _ h (by assumption)
    · exact h
  · exact h

theorem stage_energy_domEq {m : Dict} {c : Catalog}
    (h : domEq m c) : domEq (stage_energy c m) c := by
  unfold stage_energy
  split
  · exact fset_domEq _ h (by assumption)
  · exact h

theorem stage_temp_dev_domEq {m : Dict} {c : Catalog}
    (h : domEq m c) : domEq (stage_temp_dev c m) c := by
  unfold stage_temp_dev
  split
  · split
    · exact fset_domEq _ h (by assumption)
    · exact h
  · exact h

theorem stage_soc_domEq {m : Dict} {c : Catalog} (i : Dict)
    (h : domEq m c) : domEq (stage_soc i c m) c := by
  unfold stage_soc
  split
  · exact h
  · split
    · exact fset_domEq _ h (by assumption)
    · exact h

theorem stage_exp_time_domEq {m : Dict} {c : Catalog} (i : Dict)
    (h : domEq m c) : domEq (stage_exp_time i c m) c := by
  unfold stage_exp_time
  split
  · split
    · exact fset_domEq _ h (by assumption)
    · exact h
  · exact h

theorem mapV_domEq (i : Dict) (c : Catalog) : domEq (mapV i c) c :=
  stage_vdrop_domEq (stage_cycles_domEq i (stage_current_domEq i
    (stage_voltage_domEq i (stage_temp_domEq i (initFeatures_domEq c)))))

theorem prepare_map_domEq (i : Dict) (c : Catalog) : domEq (prepare_map i c) c :=
  stage_exp_time_domEq i (stage_soc_domEq i (stage_temp_dev_domEq
    (stage_energy_domEq (mapV_domEq i c))))

/-! ### Which keys each block can write -/

theorem stage_temp_lookup_ne (i : Dict) (c : Catalog) (m : Dict) (k : String)
    (h : k ≠ "Exp_Temperature") :
    (stage_temp i c m).lookup k = m.lookup k := by
  unfold stage_temp
  split
  · rfl
  · split
    · exact lookup_fset_ne _ _ _ _ h
    · rfl

theorem stage_voltage_lookup_ne (i : Dict) (c : Catalog) (m : Dict) (k : String)
    (h1 : k ≠ "Exp_Voltage") (h2 : k ≠ "Max. Voltage Dischar. (V)")
    (h3 : k ≠ "Min. Voltage Charg. (V)") :
    (stage_voltage i c m).lookup k = m.lookup k := by
  unfold stage_voltage
  split
  · rfl
  · split <;> split <;> split <;>
      simp [lookup_fset_ne, h1, h2, h3]

theorem stage_current_lookup_ne (i : Dict) (c : Catalog) (m : Dict) (k : String)
    (h : k ≠ "Exp_Current") :
    (stage_current i c m).lookup k = m.lookup k := by
  unfold stage_current
  split
  · rfl
  · split
    · exact lookup_fset_ne _ _ _ _ h
    · rfl

theorem stage_cycles_lookup_ne (i : Dict) (c : Catalog) (m : Dict) (k : String)
    (h1 : k ≠ "Cycle_Index") (h2 : k ≠ "cycle_squared") :
    (stage_cycles i c m).lookup k = m.lookup k := by
  unfold stage_cycles
  split
  · rfl
  · split <;> split <;> simp [lookup_fset_ne, h1, h2]

theorem stage_vdrop_lookup_ne (c : Catalog) (m : Dict) (k : String)
    (h : k ≠ "voltage_drop") :
    (stage_vdrop c m).lookup k = m.lookup k := by
  unfold stage_vdrop
  split
  · split
    · exact lookup_fset_ne _ _ _ _ h
    · rfl
  · rfl

theorem stage_energy_lookup_ne (c : Catalog) (m : Dict) (k : String)
    (h : k ≠ "energy_density") :
    (stage_energy c m).lookup k = m.lookup k := by
  unfold stage_energy
  split
  · exact lookup_fset_ne _ _ _ _ h
  · rfl

theorem stage_temp_dev_lookup_ne (c : Catalog) (m : Dict) (k : String)
    (h : k ≠ "temp_deviation") :
    (stage_temp_dev c m).lookup k = m.lookup k := by
  unfold stage_temp_dev
  split
  · split
    · exact lookup_fset_ne _ _ _ _ h
    · rfl
  · rfl

theorem stage_soc_lookup_ne (i : Dict) (c : Catalog) (m : Dict) (k : String)
    (h : k ≠ "Time at 4.15V (s)") :
    (stage_soc i c m).lookup k = m.lookup k := by
  unfold stage_soc
  split
  · rfl
  · split
    · exact lookup_fset_ne _ _ _ _ h
    · rfl

theorem stage_exp_time_lookup_ne (i : Dict) (c : Catalog) (m : Dict) (k : String)
    (h : k ≠ "Exp_Time") :
    (stage_exp_time i c m).lookup k = m.lookup k := by
  unfold stage_exp_time
  split
  · split
    · exact lookup_fset_ne _ _ _ _ h
    · rfl
  · rfl

/-! ## The input validator -/

/-- The result of Python `float(x)` on a value the validator may see:
a genuine (finite) number, the not-a-number value, or failure
(`ValueError`/`TypeError`). -/
inductive EVal where
  | num (q : ℚ)
  | nan
deriving DecidableEq

/-- Python `v < b` for a float `v` against a numeric bound: every
comparison with NaN is false. -/
def EVal.ltQ : EVal → ℚ → Bool
  | .num q, b => decide (q < b)
  | .nan, _ => false

/-- Python `v > b` for a float `v` against a numeric bound. -/
def EVal.gtQ : EVal → ℚ → Bool
  | .num q, b => decide (b < q)
  | .nan, _ => false

/-- A JSON value arriving in a request field, abstracted by how
`float(x)` treats it: convertible to a finite number, convertible to NaN
(e.g. the string `"nan"` or a JSON NaN), or not convertible. -/
inductive PyVal where
  | num (q : ℚ)
  | nanLit
  | nonNumeric
deriving DecidableEq

/-- `float(x)`: `some` on success, `none` when it raises. -/
def pyFloat : PyVal → Option EVal
  | .num q => some (.num q)
  | .nanLit => some .nan
  | .nonNumeric => none

/-- The request body: a JSON object, field name → value. -/
abbrev PyDict := List (String × PyVal)

def required_fields : List String :=
  ["battery_temperature", "voltage", "current", "charging_cycles", "state_of_charge"]

/-- The message of the `except (ValueError, TypeError)` branch.  The
source appends `str(e)`; no property here depends on that suffix. -/
def invalid_type_msg : String := "Invalid data type"

/-- `validate_input(data)` from `app.py`: the batched missing-field
check, then the five sequential range checks (each returning on the
first violation), all inside one try/except for conversion failures. -/
def validate_input (data : PyDict) : Bool × Option String :=
  let missing := required_fields.filter (fun f => (data.lookup f).isNone)
  if missing.isEmpty then
    match (data.lookup "battery_temperature").bind pyFloat with
    | none => (false, some invalid_type_msg)
    | some temp =>
      if temp.ltQ (-20) || temp.gtQ 60 then
        (false, some "battery_temperature must be between -20 and 60°C")
      else match (data.lookup "voltage").bind pyFloat with
      | none => (false, some invalid_type_msg)
      | some voltage =>
        if voltage.ltQ (5/2) || voltage.gtQ (9/2) then
          (false, some "voltage must be between 2.5 and 4.5V")
        else match (data.lookup "current").bind pyFloat with
        | none => (false, some invalid_type_msg)
        | some current =>
          if current.ltQ 0 || current.gtQ 10 then
            (false, some "current must be between 0 and 10A")
          else match (data.lookup "charging_cycles").bind pyFloat with
          | none => (false, some invalid_type_msg)
          | some cycles =>
            if cycles.ltQ 0 || cycles.gtQ 10000 then
              (false, some "charging_cycles must be between 0 and 10000")
            else match (data.lookup "state_of_charge").bind pyFloat with
            | none => (false, some invalid_type_msg)
            | some soc =>
              if soc.ltQ 0 || soc.gtQ 100 then
                (false, some "state_of_charge must be between 0 and 100")
              else (true, none)
  else
    (false, some ("Missing required fields: " ++ String.intercalate ", " missing))

/-- The validation stage of the `/predict` handler: on validation
failure it returns HTTP 400 with the validator's error message; on
success (`none`) the handler proceeds to `prepare_features`. -/
def predict_validation_response (data : PyDict) : Option (Nat × String) :=
  match validate_input data with
  | (true, _) => none
  | (false, msg) => some (400, msg.getD "")

/-! ## `/predict` post-processing of the raw model output -/

/-- `rul_prediction = max(0, float(rul_prediction))`. -/
def postprocess_rul (raw : ℚ) : ℚ := max 0 raw

/-- `battery_health_percentage = min(100, max(0, (rul_prediction / max_rul) * 100))`
with `max_rul = 1200`. -/
def battery_health_percentage (raw : ℚ) : ℚ :=
  min 100 (max 0 (postprocess_rul raw / 1200 * 100))

/-- Python `round(x, 2)` (up to tie-breaking, which no bound here
depends on). -/
def round2 (x : ℚ) : ℚ := (round (x * 100) : ℚ) / 100

/-- The pair `(predicted_rul, battery_health_percentage)` placed in the
200 response. -/
def predict_response (raw : ℚ) : ℚ × ℚ :=
  (round2 (postprocess_rul raw), round2 (battery_health_percentage raw))

/-! ## Helper lemmas for the post-processing bounds -/

theorem round2_nonneg {x : ℚ} (h : 0 ≤ x) : 0 ≤ round2 x := by
  unfold round2
  apply div_nonneg _ (by norm_num)
  have h1 : (0 : ℤ) ≤ round (x * 100) := by
    rw [round_eq, Int.floor_nonneg]
    nlinarith
  exact_mod_cast h1

theorem round2_le_100 {x : ℚ} (h : x ≤ 100) : round2 x ≤ 100 := by
  unfold round2
  rw [div_le_iff (by norm_num : (0:ℚ) < 100)]
  have h1 : round (x * 100) ≤ (10000 : ℤ) := by
    rw [round_eq]
    have h2 : x * 100 + 1/2 ≤ ((10000 : ℤ) : ℚ) + 1/2 := by push_cast; linarith
    calc ⌊x * 100 + 1/2⌋ ≤ ⌊((10000 : ℤ) : ℚ) + 1/2⌋ := Int.floor_mono h2
      _ = ⌊(1/2 : ℚ)⌋ + 10000 := by rw [add_comm]; exact Int.floor_add_int _ _
      _ = 10000 := by norm_num
  calc ((round (x * 100) : ℤ) : ℚ) ≤ ((10000 : ℤ) : ℚ) := by exact_mod_cast h1
    _ = 100 * 100 := by norm_num

/-! ## Claim theorems -/

/-- C5: for every input dictionary and every catalog, the output vector
of `prepare_features` has length equal to the catalog's name-list
length, and its `k`-th entry is exactly the working map's value at the
`k`-th catalog name (the defensive median fallback in the final
comprehension never fires), so value order matches catalog order. -/
theorem prepare_features_length_and_order (i : Dict) (c : Catalog) :
    (prepare_features i c).length = c.feature_names.length ∧
    ∀ (k : ℕ) (hk : k < c.feature_names.length)
      (hk' : k < (prepare_features i c).length),
      ∃ v : ℚ,
        (prepare_map i c).lookup (c.feature_names.get ⟨k, hk⟩) = some v ∧
        (prepare_features i c).get ⟨k, hk'⟩ = v := by
  constructor
  · simp [prepare_features, buildVector]
  · intro k hk hk'
    have hmem : c.feature_names.get ⟨k, hk⟩ ∈ c.feature_names :=
      List.get_mem _ _ hk
    have hdom := (prepare_map_domEq i c (c.feature_names.get ⟨k, hk⟩)).mpr hmem
    rcases Option.isSome_iff_exists.mp hdom with ⟨v, hv⟩
    refine ⟨v, hv, ?_⟩
    simp only [prepare_features, buildVector] at hk' ⊢
    rw [List.get_map]
    simp only [List.get_eq_getElem] at hv
    simp [fgetD, hv]

/-- C5 witness. -/
theorem prepare_features_length_and_order_witness :
    (prepare_features [("voltage", 39/10)] ⟨["Exp_Voltage"], []⟩).length =
      (Catalog.mk ["Exp_Voltage"] []).feature_names.length ∧
    ∃ v : ℚ,
      (prepare_map [("voltage", 39/10)] ⟨["Exp_Voltage"], []⟩).lookup
          ((Catalog.mk ["Exp_Voltage"] []).feature_names.get
            ⟨0, by decide⟩) = some v ∧
      (prepare_features [("voltage", 39/10)] ⟨["Exp_Voltage"], []⟩).get
          ⟨0, by simp [prepare_features, buildVector]⟩ = v :=
  ⟨(prepare_features_length_and_order [("voltage", 39/10)]
      ⟨["Exp_Voltage"], []⟩).1,
   (prepare_features_length_and_order [("voltage", 39/10)]
      ⟨["Exp_Voltage"], []⟩).2 0 (by decide)
      (by simp [prepare_features, buildVector])⟩

/-- C6: the final vector is built strictly from the catalog's ordered
names — a write to any name outside the catalog leaves every output
entry unchanged — and every key the working map ever binds is a catalog
name. -/
theorem prepare_features_catalog_only (i : Dict) (c : Catalog) (k : String)
    (v : ℚ) (h : k ∉ c.feature_names) :
    buildVector c (fset (prepare_map i c) k v) = buildVector c (prepare_map i c) ∧
    ∀ k', ((prepare_map i c).lookup k').isSome → k' ∈ c.feature_names := by
  constructor
  · unfold buildVector
    apply List.map_congr_left
    intro n hn
    have hnk : n ≠ k := fun e => h (e ▸ hn)
    simp [fgetD, lookup_fset_ne _ _ _ _ hnk]
  · intro k' hk'
    exact (prepare_map_domEq i c k').mp hk'

/-- C6 witness: the name `"not_in_catalog"` is outside a one-name
catalog and writing to it does not change the output vector. -/
theorem prepare_features_catalog_only_witness :
    "not_in_catalog" ∉ (Catalog.mk ["Exp_Voltage"] []).feature_names ∧
    (buildVector ⟨["Exp_Voltage"], []⟩
        (fset (prepare_map [] ⟨["Exp_Voltage"], []⟩) "not_in_catalog" 1) =
      buildVector ⟨["Exp_Voltage"], []⟩ (prepare_map [] ⟨["Exp_Voltage"], []⟩) ∧
    ∀ k', ((prepare_map [] ⟨["Exp_Voltage"], []⟩).lookup k').isSome →
      k' ∈ (Catalog.mk ["Exp_Voltage"] []).feature_names) :=
  ⟨by decide, prepare_features_catalog_only [] ⟨["Exp_Voltage"], []⟩
    "not_in_catalog" 1 (by decide)⟩

/-- C8: the `/predict` post-processing floors the predicted RUL at 0, so
the returned `predicted_rul` is nonnegative, and computes
`battery_health_percentage` as `clamp(RUL / 1200 * 100, 0, 100)`, so the
returned percentage lies in `[0, 100]`. -/
theorem predict_postprocessing_bounds (raw : ℚ) :
    postprocess_rul raw = max 0 raw ∧
    0 ≤ (predict_response raw).1 ∧
    battery_health_percentage raw =
      min 100 (max 0 (postprocess_rul raw / 1200 * 100)) ∧
    0 ≤ (predict_response raw).2 ∧ (predict_response raw).2 ≤ 100 := by
  refine ⟨rfl, ?_, rfl, ?_, ?_⟩
  · exact round2_nonneg (le_max_left 0 raw)
  · exact round2_nonneg (le_min (by norm_num) (le_max_left _ _))
  · exact round2_le_100 (min_le_left _ _)

/-- C9: `prepare_features` is deterministic — identical (input, catalog)
argument pairs always yield identical output vectors.  (Side-effect
freedom holds by construction of the embedding: every assignment in the
source writes to the local `features` dict, never to `user_input` or to
the catalog globals, so the function is a pure map of its arguments.) -/
theorem prepare_features_deterministic (i₁ i₂ : Dict) (c₁ c₂ : Catalog)
    (h₁ : i₁ = i₂) (h₂ : c₁ = c₂) :
    prepare_features i₁ c₁ = prepare_features i₂ c₂ := by
  rw [h₁, h₂]

/-- C9 witness. -/
theorem prepare_features_deterministic_witness :
    prepare_features [("voltage", 39/10)] ⟨["Exp_Voltage"], []⟩ =
      prepare_features [("voltage", 39/10)] ⟨["Exp_Voltage"], []⟩ :=
  prepare_features_deterministic [("voltage", 39/10)] [("voltage", 39/10)]
    ⟨["Exp_Voltage"], []⟩ ⟨["Exp_Voltage"], []⟩ rfl rfl

/-- C2: for every input missing one or more of the five required
fields, `validate_input` fails with the batched missing-fields message,
and every absent required field appears in the batched list (not only
the first one found). -/
theorem validate_input_missing_fields (data : PyDict)
    (h : required_fields.filter (fun f => (data.lookup f).isNone) ≠ []) :
    validate_input data =
      (false, some ("Missing required fields: " ++ String.intercalate ", "
        (required_fields.filter (fun f => (data.lookup f).isNone)))) ∧
    ∀ f ∈ required_fields, (data.lookup f).isNone →
      f ∈ required_fields.filter (fun f => (data.lookup f).isNone) := by
  constructor
  · unfold validate_input
    rw [if_neg]
    simpa [List.isEmpty_iff] using h
  · intro f hf hnone
    exact List.mem_filter.mpr ⟨hf, by simpa using hnone⟩

/-- C2 witness: an input carrying only `voltage` is rejected with a
message listing the other four required fields. -/
theorem validate_input_missing_fields_witness :
    required_fields.filter
        (fun f => (List.lookup f [("voltage", PyVal.num 3)]).isNone) ≠ [] ∧
    (validate_input [("voltage", PyVal.num 3)] =
      (false, some ("Missing required fields: " ++ String.intercalate ", "
        (required_fields.filter
          (fun f => (List.lookup f [("voltage", PyVal.num 3)]).isNone)))) ∧
    ∀ f ∈ required_fields,
      (List.lookup f [("voltage", PyVal.num 3)]).isNone →
      f ∈ required_fields.filter
        (fun f => (List.lookup f [("voltage", PyVal.num 3)]).isNone)) :=
  ⟨by decide, validate_input_missing_fields [("voltage", PyVal.num 3)] (by decide)⟩

/-- C4: whenever the input supplies a voltage and the catalog contains
the min-charge-voltage name, the final working map binds that feature to
`max(voltage - 0.5, 3.0)`. -/
theorem min_charge_voltage_formula (i : Dict) (c : Catalog) (v : ℚ)
    (hv : i.lookup "voltage" = some v)
    (hc : "Min. Voltage Charg. (V)" ∈ c.feature_names) :
    (prepare_map i c).lookup "Min. Voltage Charg. (V)" =
      some (max (v - 1/2) 3) := by
  unfold prepare_map
  rw [stage_exp_time_lookup_ne _ _ _ _ (by decide),
      stage_soc_lookup_ne _ _ _ _ (by decide),
      stage_temp_dev_lookup_ne _ _ _ (by decide),
      stage_energy_lookup_ne _ _ _ (by decide)]
  unfold mapV
  rw [stage_vdrop_lookup_ne _ _ _ (by decide),
      stage_cycles_lookup_ne _ _ _ _ (by decide) (by decide),
      stage_current_lookup_ne _ _ _ _ (by decide)]
  unfold stage_voltage
  rw [hv]
  dsimp only
  rw [if_pos hc]
  exact lookup_fset_self _ _ _

/-- C4 witness: voltage 3.9 yields 3.4 for the min-charge-voltage
feature. -/
theorem min_charge_voltage_witness :
    (prepare_map [("voltage", 39/10)] ⟨["Min. Voltage Charg. (V)"], []⟩).lookup
      "Min. Voltage Charg. (V)" = some (17/5) := by
  rw [min_charge_voltage_formula [("voltage", 39/10)]
    ⟨["Min. Voltage Charg. (V)"], []⟩ (39/10) rfl (by decide)]
  norm_num

/-- C3: whenever the catalog contains `energy_density`, the working map
binds it to (the direct-voltage feature's value if that name is in the
catalog, else the max-discharge-voltage feature's value if in the
catalog, else the constant 3.7) times (the `Time constant current (s)`
value if that name is in the catalog, else the constant 6000) — a plain
product of a voltage and a time in which the fetched current value is
never multiplied. -/
theorem energy_density_formula (i : Dict) (c : Catalog)
    (h : "energy_density" ∈ c.feature_names) :
    ∃ vval tval : ℚ,
      (prepare_map i c).lookup "energy_density" = some (vval * tval) ∧
      (if "Exp_Voltage" ∈ c.feature_names then
        (mapV i c).lookup "Exp_Voltage" = some vval
      else if "Max. Voltage Dischar. (V)" ∈ c.feature_names then
        (mapV i c).lookup "Max. Voltage Dischar. (V)" = some vval
      else vval = 37/10) ∧
      (if "Time constant current (s)" ∈ c.feature_names then
        (mapV i c).lookup "Time constant current (s)" = some tval
      else tval = 6000) := by
  have hdom := mapV_domEq i c
  have hpm : (prepare_map i c).lookup "energy_density" =
      (stage_energy c (mapV i c)).lookup "energy_density" := by
    unfold prepare_map
    rw [stage_exp_time_lookup_ne _ _ _ _ (by decide),
        stage_soc_lookup_ne _ _ _ _ (by decide),
        stage_temp_dev_lookup_ne _ _ _ (by decide)]
  have hse : (stage_energy c (mapV i c)).lookup "energy_density" =
      some ((match (mapV i c).lookup "Exp_Voltage" with
             | some v => v
             | none => ((mapV i c).lookup "Max. Voltage Dischar. (V)").getD (37/10)) *
            (((mapV i c).lookup "Time constant current (s)").getD 6000)) := by
    unfold stage_energy
    rw [if_pos h]
    exact lookup_fset_self _ _ _
  refine ⟨_, _, hpm.trans hse, ?_, ?_⟩
  · by_cases hEV : "Exp_Voltage" ∈ c.feature_names
    · rcases Option.isSome_iff_exists.mp ((hdom _).mpr hEV) with ⟨x, hx⟩
      rw [if_pos hEV, hx]
    · rw [if_neg hEV]
      have hnone : (mapV i c).lookup "Exp_Voltage" = none :=
        Option.not_isSome_iff_eq_none.mp (fun hs => hEV ((hdom _).mp hs))
      rw [hnone]
      by_cases hMax : "Max. Voltage Dischar. (V)" ∈ c.feature_names
      · rcases Option.isSome_iff_exists.mp ((hdom _).mpr hMax) with ⟨y, hy⟩
        rw [if_pos hMax, hy]
        rfl
      · rw [if_neg hMax]
        have hnone2 : (mapV i c).lookup "Max. Voltage Dischar. (V)" = none :=
          Option.not_isSome_iff_eq_none.mp (fun hs => hMax ((hdom _).mp hs))
        rw [hnone2]
        rfl
  · by_cases hT : "Time constant current (s)" ∈ c.feature_names
    · rcases Option.isSome_iff_exists.mp ((hdom _).mpr hT) with ⟨z, hz⟩
      rw [if_pos hT, hz]
      rfl
    · rw [if_neg hT]
      have hnone3 : (mapV i c).lookup "Time constant current (s)" = none :=
        Option.not_isSome_iff_eq_none.mp (fun hs => hT ((hdom _).mp hs))
      rw [hnone3]
      rfl

/-- C3 witness: against a catalog holding only `energy_density`, the
formula falls back to 3.7 × 6000. -/
theorem energy_density_witness :
    ∃ vval tval : ℚ,
      (prepare_map [] ⟨["energy_density"], []⟩).lookup "energy_density" =
        some (vval * tval) ∧
      (if "Exp_Voltage" ∈ (Catalog.mk ["energy_density"] []).feature_names then
        (mapV [] ⟨["energy_density"], []⟩).lookup "Exp_Voltage" = some vval
      else if "Max. Voltage Dischar. (V)" ∈
          (Catalog.mk ["energy_density"] []).feature_names then
        (mapV [] ⟨["energy_density"], []⟩).lookup "Max. Voltage Dischar. (V)" =
          some vval
      else vval = 37/10) ∧
      (if "Time constant current (s)" ∈
          (Catalog.mk ["energy_density"] []).feature_names then
        (mapV [] ⟨["energy_density"], []⟩).lookup "Time constant current (s)" =
          some tval
      else tval = 6000) :=
  energy_density_formula [] ⟨["energy_density"], []⟩ (by decide)

/-- The request of the spec's two-violation end-to-end example:
`{battery_temperature:150, voltage:3.9, current:1.2, charging_cycles:540,
state_of_charge:150}` — temperature and state_of_charge both out of
range. -/
def I_out_of_range : PyDict :=
  [("battery_temperature", PyVal.num 150), ("voltage", PyVal.num (39/10)),
   ("current", PyVal.num (6/5)), ("charging_cycles", PyVal.num 540),
   ("state_of_charge", PyVal.num 150)]

/-- C1 counterexample: on the two-violation input the endpoint's 400
response carries only the temperature range message; the string
`state_of_charge` does not occur in it, so no range-violation message
for `state_of_charge` is included. -/
theorem predict_two_violations_reports_first_only :
    predict_validation_response I_out_of_range =
      some (400, "battery_temperature must be between -20 and 60°C") ∧
    ¬ ("state_of_charge".toList <:+:
        "battery_temperature must be between -20 and 60°C".toList) :=
  ⟨rfl, by decide⟩

/-- C1 (amended): on the two-violation input, validation fails and the
endpoint returns HTTP 400 whose error message is the range-violation
message of the first offending field in check order —
`battery_temperature` — alone. -/
theorem predict_two_violations_response :
    predict_validation_response I_out_of_range =
      some (400, "battery_temperature must be between -20 and 60°C") := rfl

/-- An input whose `state_of_charge` converts to the float NaN; every
other field is a valid in-range number. -/
def I_nan_soc : PyDict :=
  [("battery_temperature", PyVal.num (65/2)), ("voltage", PyVal.num (39/10)),
   ("current", PyVal.num (6/5)), ("charging_cycles", PyVal.num 540),
   ("state_of_charge", PyVal.nanLit)]

/-- C10: a NaN `state_of_charge` passes validation — both range
comparisons are false on NaN — so the request is not rejected (no 400)
and reaches the feature-preparation stage, even though the value is not
a number within [0, 100]. -/
theorem nan_passes_validation :
    validate_input I_nan_soc = (true, none) ∧
    predict_validation_response I_nan_soc = none ∧
    (I_nan_soc.lookup "state_of_charge").bind pyFloat = some EVal.nan ∧
    ¬ ∃ q : ℚ, (I_nan_soc.lookup "state_of_charge").bind pyFloat =
        some (EVal.num q) ∧ 0 ≤ q ∧ q ≤ 100 := by
  have hv : validate_input I_nan_soc = (true, none) := by
    simp [validate_input, required_fields, I_nan_soc, List.lookup, pyFloat,
      EVal.ltQ, EVal.gtQ]
    norm_num
  refine ⟨hv, by simp [predict_validation_response, hv], rfl, ?_⟩
  rintro ⟨q, hq, -⟩
  have h3 : (I_nan_soc.lookup "state_of_charge").bind pyFloat =
      some EVal.nan := rfl
  rw [h3] at hq
  exact EVal.noConfusion (Option.some.inj hq)

/-- An input whose `battery_temperature` converts to the float NaN;
every other field is a valid in-range number. -/
def I_nan_temp : PyDict :=
  [("battery_temperature", PyVal.nanLit), ("voltage", PyVal.num (39/10)),
   ("current", PyVal.num (6/5)), ("charging_cycles", PyVal.num 540),
   ("state_of_charge", PyVal.num 76)]

/-- C7 counterexample: `validate_input` succeeds on an input whose
`battery_temperature` is NaN — a value that is not a number within
[-20, 60] — so success is not restricted to all-fields-in-range
inputs. -/
theorem validate_success_despite_out_of_range :
    validate_input I_nan_temp = (true, none) ∧
    ¬ ∃ q : ℚ, (I_nan_temp.lookup "battery_temperature").bind pyFloat =
        some (EVal.num q) ∧ -20 ≤ q ∧ q ≤ 60 := by
  have hv : validate_input I_nan_temp = (true, none) := by
    simp [validate_input, required_fields, I_nan_temp, List.lookup, pyFloat,
      EVal.ltQ, EVal.gtQ]
    norm_num
  refine ⟨hv, ?_⟩
  rintro ⟨q, hq, -⟩
  have h3 : (I_nan_temp.lookup "battery_temperature").bind pyFloat =
      some EVal.nan := rfl
  rw [h3] at hq
  exact EVal.noConfusion (Option.some.inj hq)

/-- A field is present, converts under `float()`, and triggers neither
of the validator's two comparisons against its bounds.  For a genuine
number this means lying in the inclusive range; NaN also qualifies,
since both comparisons are false on NaN. -/
def fieldPasses (data : PyDict) (f : String) (lo hi : ℚ) : Prop :=
  ∃ v : EVal, (data.lookup f).bind pyFloat = some v ∧
    v.ltQ lo = false ∧ v.gtQ hi = false

theorem bind_some_isNone_false {o : Option PyVal} {v : EVal}
    (h : o.bind pyFloat = some v) : o.isNone = false := by
  cases o with
  | none => simp at h
  | some _ => rfl

/-- C7 (amended): `validate_input` returns success (with no error
message) exactly when all five required fields are present, convertible,
and each converted value fails both range comparisons — i.e. each value
is within its documented inclusive range or is NaN. -/
theorem validate_input_success_iff (data : PyDict) :
    validate_input data = (true, none) ↔
      (fieldPasses data "battery_temperature" (-20) 60 ∧
       fieldPasses data "voltage" (5/2) (9/2) ∧
       fieldPasses data "current" 0 10 ∧
       fieldPasses data "charging_cycles" 0 10000 ∧
       fieldPasses data "state_of_charge" 0 100) := by
  constructor
  · intro h
    simp only [validate_input] at h
    by_cases hm :
        (required_fields.filter (fun f => (data.lookup f).isNone)).isEmpty
    case neg => rw [if_neg (by simpa using hm)] at h; simp at h
    rw [if_pos hm] at h
    rcases h1 : (data.lookup "battery_temperature").bind pyFloat with _ | v1
    · rw [h1] at h; simp at h
    rw [h1] at h; dsimp only at h
    by_cases hb1 : (v1.ltQ (-20) || v1.gtQ 60) = true
    · rw [if_pos hb1] at h; simp at h
    replace hb1 : (v1.ltQ (-20) || v1.gtQ 60) = false := by simpa using hb1
    rw [hb1] at h; simp only [Bool.false_eq_true, if_false] at h
    rcases h2 : (data.lookup "voltage").bind pyFloat with _ | v2
    · rw [h2] at h; simp at h
    rw [h2] at h; dsimp only at h
    by_cases hb2 : (v2.ltQ (5/2) || v2.gtQ (9/2)) = true
    · rw [if_pos hb2] at h; simp at h
    replace hb2 : (v2.ltQ (5/2) || v2.gtQ (9/2)) = false := by simpa using hb2
    rw [hb2] at h; simp only [Bool.false_eq_true, if_false] at h
    rcases h3 : (data.lookup "current").bind pyFloat with _ | v3
    · rw [h3] at h; simp at h
    rw [h3] at h; dsimp only at h
    by_cases hb3 : (v3.ltQ 0 || v3.gtQ 10) = true
    · rw [if_pos hb3] at h; simp at h
    replace hb3 : (v3.ltQ 0 || v3.gtQ 10) = false := by simpa using hb3
    rw [hb3] at h; simp only [Bool.false_eq_true, if_false] at h
    rcases h4 : (data.lookup "charging_cycles").bind pyFloat with _ | v4
    · rw [h4] at h; simp at h
    rw [h4] at h; dsimp only at h
    by_cases hb4 : (v4.ltQ 0 || v4.gtQ 10000) = true
    · rw [if_pos hb4] at h; simp at h
    replace hb4 : (v4.ltQ 0 || v4.gtQ 10000) = false := by simpa using hb4
    rw [hb4] at h; simp only [Bool.false_eq_true, if_false] at h
    rcases h5 : (data.lookup "state_of_charge").bind pyFloat with _ | v5
    · rw [h5] at h; simp at h
    rw [h5] at h; dsimp only at h
    by_cases hb5 : (v5.ltQ 0 || v5.gtQ 100) = true
    · rw [if_pos hb5] at h; simp at h
    replace hb5 : (v5.ltQ 0 || v5.gtQ 100) = false := by simpa using hb5
    exact ⟨⟨v1, h1, (Bool.or_eq_false_iff.mp hb1).1, (Bool.or_eq_false_iff.mp hb1).2⟩,
      ⟨v2, h2, (Bool.or_eq_false_iff.mp hb2).1, (Bool.or_eq_false_iff.mp hb2).2⟩,
      ⟨v3, h3, (Bool.or_eq_false_iff.mp hb3).1, (Bool.or_eq_false_iff.mp hb3).2⟩,
      ⟨v4, h4, (Bool.or_eq_false_iff.mp hb4).1, (Bool.or_eq_false_iff.mp hb4).2⟩,
      ⟨v5, h5, (Bool.or_eq_false_iff.mp hb5).1, (Bool.or_eq_false_iff.mp hb5).2⟩⟩
  · rintro ⟨⟨v1, hb1, hl1, hg1⟩, ⟨v2, hb2, hl2, hg2⟩, ⟨v3, hb3, hl3, hg3⟩,
      ⟨v4, hb4, hl4, hg4⟩, ⟨v5, hb5, hl5, hg5⟩⟩
    have e1 := bind_some_isNone_false hb1
    have e2 := bind_some_isNone_false hb2
    have e3 := bind_some_isNone_false hb3
    have e4 := bind_some_isNone_false hb4
    have e5 := bind_some_isNone_false hb5
    have hm : (required_fields.filter (fun f => (data.lookup f).isNone)).isEmpty := by
      simp [required_fields, List.filter, e1, e2, e3, e4, e5]
    simp only [validate_input]
    rw [if_pos hm]
    simp only [hb1, hb2, hb3, hb4, hb5, hl1, hg1, hl2, hg2, hl3, hg3, hl4,
      hg4, hl5, hg5, Bool.or_self, Bool.false_eq_true, if_false]

end EVBattery
